import Mathlib

/-!
# Verification of the voice-controlled robotic grasping pipeline

Shallow embedding of the repository's agents
(`src/utils/message_format.py`, `src/agents/vision_agent.py`,
`src/agents/speech_agent.py`, `src/agents/motor_control_agent.py`,
`src/agents/learning_agent.py`, `src/agents/master_agent.py`) and proofs
about the claims of the specification.

Modelling conventions:
* Python floats become `ℚ` (all arithmetic in the repository is exact at
  this granularity: halves, percentages, fixed decimal thresholds).
* Python dicts with a fixed key set become structures; payloads whose
  shape depends on the code path become inductive types, one constructor
  per shape.
* Side effects (wall-clock timestamps, the camera, the speech recogniser,
  the Gemini call, the file system) become explicit parameters: an
  `Option`/`Except` argument stands for the external call's outcome, and
  the persisted file is threaded as an explicit `Option SavedData` value.
* Python truthiness of strings (`if not text:`) is modelled explicitly:
  `none` and `some ""` are falsy.
-/

namespace RoboSys

/-- Python's `a in b` substring test, prefix part: does `as` start `bs`? -/
def prefixOfList : List Char → List Char → Bool
  | [], _ => true
  | _ :: _, [] => false
  | a :: as, b :: bs => a == b && prefixOfList as bs

/-- Python's `needle in hay` substring test on character lists. -/
def subList (needle : List Char) : List Char → Bool
  | [] => prefixOfList needle []
  | b :: bs => prefixOfList needle (b :: bs) || subList needle bs

/-- Python's `needle in hay` on strings (case sensitive, as in the source). -/
def strContains (hay needle : String) : Bool :=
  subList needle.data hay.data

/-- Lower-cased character list of a string (Python `str.lower()`). -/
def lowerStr (s : String) : List Char :=
  s.data.map Char.toLower

/-- Python `list[-n:]`: the last `n` elements (all of them if fewer). -/
def lastN (n : ℕ) (l : List α) : List α :=
  l.drop (l.length - n)

/-- The uniform message envelope of `src/utils/message_format.py`:
`{timestamp, agent, type, data, status}`. The payload type varies with the
message type, hence the type parameter. -/
structure Envelope (α : Type) where
  timestamp : String
  agent : String
  type : String
  data : α
  status : String
deriving Repr, DecidableEq

/-- `create_message` from `src/utils/message_format.py`. The timestamp is
produced by `time.strftime` in the source; here it is an explicit argument. -/
def create_message (ts agent_name message_type : String) (data : α)
    (status : String := "success") : Envelope α :=
  ⟨ts, agent_name, message_type, data, status⟩

/-! ## Vision agent (`src/agents/vision_agent.py`) -/

/-- Bounding box dict built in `VisionAgent.detect_objects`:
`{x1,y1,x2,y2,center_x,center_y,width,height}` (all Python ints). -/
structure BBox where
  x1 : ℤ
  y1 : ℤ
  x2 : ℤ
  y2 : ℤ
  center_x : ℤ
  center_y : ℤ
  width : ℤ
  height : ℤ
deriving Repr, DecidableEq

/-- Builds the bbox dict the way `detect_objects` does:
`center_x = (x1+x2)//2` (Python floor division), `width = x2-x1`, etc. -/
def mkBBox (x1 y1 x2 y2 : ℤ) : BBox :=
  ⟨x1, y1, x2, y2, (x1 + x2).fdiv 2, (y1 + y2).fdiv 2, x2 - x1, y2 - y1⟩

/-- A detection dict from `VisionAgent.detect_objects`. -/
structure Detection where
  class_name : String
  confidence : ℚ
  bbox : BBox
  is_graspable : Bool
deriving Repr, DecidableEq

/-- The position dict returned by `VisionAgent.estimate_position`. -/
structure Position where
  horizontal : String
  vertical : String
  depth : String
  x : ℤ
  y : ℤ
deriving Repr, DecidableEq

/-- `VisionAgent.estimate_position`: buckets the detection's centre into
left/center/right × top/middle/bottom by the 0.33/0.66 fractions of the
frame, and depth by area-ratio thresholds 0.15/0.08/0.03. The frame size
is `self.frame_width`/`self.frame_height` in the source, passed here
explicitly. -/
def estimate_position (frame_width frame_height : ℤ) (d : Detection) :
    Position :=
  let cx := d.bbox.center_x
  let cy := d.bbox.center_y
  let area := d.bbox.width * d.bbox.height
  let horizontal :=
    if (cx : ℚ) < frame_width * (33/100) then "left"
    else if (cx : ℚ) < frame_width * (66/100) then "center"
    else "right"
  let vertical :=
    if (cy : ℚ) < frame_height * (33/100) then "top"
    else if (cy : ℚ) < frame_height * (66/100) then "middle"
    else "bottom"
  let area_ratio : ℚ := (area : ℚ) / ((frame_width : ℚ) * frame_height)
  let depth :=
    if area_ratio > 15/100 then "very_close"
    else if area_ratio > 8/100 then "close"
    else if area_ratio > 3/100 then "medium"
    else "far"
  ⟨horizontal, vertical, depth, cx, cy⟩

/-- The match test of the loop in `VisionAgent.find_object`:
`target_object.lower() in det["class_name"].lower() and det["is_graspable"]`. -/
def matchesTarget (target : String) (d : Detection) : Bool :=
  subList (lowerStr target) (lowerStr d.class_name) && d.is_graspable

/-- Payload of the `detection` message of `find_object`, one constructor
per dict shape produced by the source. -/
inductive FindData where
  /-- `{"error": "Camera not available"}` (no `found` key). -/
  | cameraError (error : String)
  /-- `{"found": True, "object": det, "position": position}`. -/
  | foundObj (object : Detection) (position : Position)
  /-- `{"found": False, "target": target, "total_objects": n}`. -/
  | notFound (target : String) (total_objects : ℕ)
deriving Repr, DecidableEq

/-- Python `vision_result["data"].get("found")` truthiness. -/
def FindData.foundFlag : FindData → Bool
  | .foundObj _ _ => true
  | _ => false

/-- `VisionAgent.find_object`. The camera capture and detector run are
external: `frame = none` models `capture_frame()` returning `None`;
otherwise `frame = some dets` is the detector's output list. -/
def find_object (ts : String) (frame_width frame_height : ℤ)
    (frame : Option (List Detection)) (target_object : String) :
    Envelope FindData :=
  match frame with
  | none =>
      create_message ts "vision_agent" "detection"
        (.cameraError "Camera not available") "error"
  | some detections =>
      match detections.find? (matchesTarget target_object) with
      | some det =>
          create_message ts "vision_agent" "detection"
            (.foundObj det (estimate_position frame_width frame_height det))
            "success"
      | none =>
          create_message ts "vision_agent" "detection"
            (.notFound target_object detections.length) "error"

/-- Payload of the `scan` message of `scan_scene`. -/
inductive ScanData where
  | cameraError (error : String)
  | result (total_objects graspable_count : ℕ)
      (graspable_objects : List Detection)
deriving Repr, DecidableEq

/-- `VisionAgent.scan_scene`, camera/detector externalised as in
`find_object`. -/
def scan_scene (ts : String) (frame : Option (List Detection)) :
    Envelope ScanData :=
  match frame with
  | none =>
      create_message ts "vision_agent" "scan"
        (.cameraError "Camera not available") "error"
  | some detections =>
      let graspable := detections.filter (·.is_graspable)
      create_message ts "vision_agent" "scan"
        (.result detections.length graspable.length graspable) "success"

/-! ## Speech agent (`src/agents/speech_agent.py`) -/

/-- `self.action_keywords` of `SpeechAgent.__init__`, in dict insertion
order (Python dicts preserve insertion order). -/
def action_keywords : List (String × List String) :=
  [("pick", ["pick", "grab", "take", "get", "pickup"]),
   ("place", ["place", "put", "drop", "set", "release"]),
   ("move", ["move", "shift", "transfer"]),
   ("show", ["show", "display", "list", "find"]),
   ("stop", ["stop", "halt", "cancel", "abort"])]

/-- `self.known_objects` of `SpeechAgent.__init__`. -/
def known_objects : List String :=
  ["bottle", "cup", "glass", "bowl", "can",
   "phone", "book", "pen", "remote", "ball",
   "banana", "apple", "orange", "box"]

/-- The `{action, object, confidence}` dict returned by
`extract_keywords` and `extract_with_gemini`. -/
structure KwResult where
  action : Option String
  object : Option String
  confidence : ℚ
deriving Repr, DecidableEq

/-- `SpeechAgent.extract_keywords`: the first category of
`action_keywords` any of whose synonyms is a substring of `text` supplies
the action (+0.5 confidence), the first entry of `known_objects` that is a
substring of `text` supplies the object (+0.5 confidence). `find?`
captures the two `for`-loops with `break`. -/
def extract_keywords (text : String) : KwResult :=
  let actionHit :=
    action_keywords.find? (fun p => p.2.any (fun k => strContains text k))
  let objectHit := known_objects.find? (fun o => strContains text o)
  ⟨actionHit.map (·.1), objectHit,
   (if actionHit.isSome then 1/2 else 0) +
   (if objectHit.isSome then 1/2 else 0)⟩

/-- `SpeechAgent.extract_with_gemini`. The Gemini round-trip (generate,
strip markdown fences, `json.loads`) is external: `oracle = .ok r` is a
successfully parsed reply, `oracle = .error e` is a raised exception or a
parse failure, which the `except` branch converts to
`{"action": None, "object": None, "confidence": 0.0}`. -/
def extract_with_gemini (oracle : Except String KwResult) : KwResult :=
  match oracle with
  | .ok r => r
  | .error _ => ⟨none, none, 0⟩

/-- `SPEECH_CONFIG["confidence_threshold"]` from `src/config/settings.py`. -/
def confidence_threshold : ℚ := 7/10

/-- Payload of the `intent` message of `get_command`. -/
inductive IntentData where
  /-- `{"error": "No speech detected"}` when `listen()` was falsy. -/
  | noSpeech (error : String)
  /-- `{"action", "object", "confidence", "raw_text"}`. -/
  | intent (action object : Option String) (confidence : ℚ)
      (raw_text : String)
deriving Repr, DecidableEq

/-- `SpeechAgent.get_command`. `listenResult` is the outcome of
`listen()` (`none` = timeout/unrecognised); Python's `if not text:` also
treats `""` as falsy. `use_gemini` is `self.use_gemini`; `oracle` is the
external Gemini outcome consumed only when the keyword confidence is below
`confidence_threshold` and Gemini is enabled. -/
def get_command (ts : String) (listenResult : Option String)
    (use_gemini : Bool) (oracle : Except String KwResult) :
    Envelope IntentData :=
  match listenResult with
  | none =>
      create_message ts "speech_agent" "intent"
        (.noSpeech "No speech detected") "error"
  | some text =>
      if text = "" then
        create_message ts "speech_agent" "intent"
          (.noSpeech "No speech detected") "error"
      else
        let keyword_result := extract_keywords text
        let result :=
          if keyword_result.confidence < confidence_threshold ∧
              use_gemini = true then
            extract_with_gemini oracle
          else keyword_result
        create_message ts "speech_agent" "intent"
          (.intent result.action result.object result.confidence text)
          (if result.action.isSome then "success" else "error")

/-! ## Motor agent (`src/agents/motor_control_agent.py`)

The position dicts handled by the motor agent have two shapes in the
source (`{x,y,z}` or `{horizontal,vertical,depth}`); the agent never
inspects them, so the embedding is polymorphic in the position type `π`. -/

/-- Mutable state of `MotorAgent`. -/
structure MotorState (π : Type) where
  simulation_mode : Bool
  current_position : π
  gripper_open : Bool

/-- Payload of the `movement` message. -/
structure MoveData (π : Type) where
  action : String
  position : π

/-- Payload of the `gripper` message. -/
structure GripperData where
  action : String
  state : String
deriving Repr, DecidableEq

/-- Payload of the motor `action` messages (pick/place/stop), one
constructor per dict shape. -/
inductive MotorActionData where
  /-- `{"action": "pick", "status": "success", "object": name}`. -/
  | pickOk (object : Option String)
  /-- `{"action": "pick", "error": str(e)}`. -/
  | pickErr (error : String)
  /-- `{"action": "place", "status": "success"}`. -/
  | placeOk
  /-- `{"action": "place", "error": str(e)}`. -/
  | placeErr (error : String)
  /-- `{"action": "stop", "status": "stopped"}`. -/
  | stopped
deriving Repr, DecidableEq

/-- `MotorAgent.move_to_position`. In simulation mode it updates
`current_position` and returns a success envelope; in hardware mode the
body is `pass`, i.e. Python returns `None` — modelled as `none`. -/
def move_to_position (ts : String) (m : MotorState π) (target : π) :
    MotorState π × Option (Envelope (MoveData π)) :=
  if m.simulation_mode then
    ({ m with current_position := target },
     some (create_message ts "motor_agent" "movement"
       ⟨"move_complete", target⟩ "success"))
  else (m, none)

/-- `MotorAgent.open_gripper`; hardware branch is `pass` → `none`. -/
def open_gripper (ts : String) (m : MotorState π) :
    MotorState π × Option (Envelope GripperData) :=
  if m.simulation_mode then
    ({ m with gripper_open := true },
     some (create_message ts "motor_agent" "gripper"
       ⟨"open", "open"⟩ "success"))
  else (m, none)

/-- `MotorAgent.close_gripper`; hardware branch is `pass` → `none`. -/
def close_gripper (ts : String) (m : MotorState π) :
    MotorState π × Option (Envelope GripperData) :=
  if m.simulation_mode then
    ({ m with gripper_open := false },
     some (create_message ts "motor_agent" "gripper"
       ⟨"close", "closed"⟩ "success"))
  else (m, none)

/-- The `object_info` argument of `pick_object`: the `data` dict of a
successful `find_object` envelope, `{found, object, position}`. -/
structure ObjectInfo (π : Type) where
  object_class_name : Option String
  position : π

/-- `MotorAgent.pick_object`: move, open gripper, sleep, close gripper,
sleep, then one aggregated success envelope naming
`object_info.get("object", {}).get("class_name")`. In simulation no
sub-step can raise, so the `except` branch (`.pickErr`) is unreachable and
the embedding is the `try` body. -/
def pick_object (ts : String) (m : MotorState π) (info : ObjectInfo π) :
    MotorState π × Envelope MotorActionData :=
  let m1 := (move_to_position ts m info.position).1
  let m2 := (open_gripper ts m1).1
  let m3 := (close_gripper ts m2).1
  (m3, create_message ts "motor_agent" "action"
    (.pickOk info.object_class_name) "success")

/-- `MotorAgent.place_object`: move, sleep, open gripper, sleep, then one
aggregated success envelope; `except` branch unreachable in simulation. -/
def place_object (ts : String) (m : MotorState π) (target : π) :
    MotorState π × Envelope MotorActionData :=
  let m1 := (move_to_position ts m target).1
  let m2 := (open_gripper ts m1).1
  (m2, create_message ts "motor_agent" "action" .placeOk "success")

/-- `MotorAgent.stop`: unconditionally one success envelope. -/
def motor_stop (ts : String) : Envelope MotorActionData :=
  create_message ts "motor_agent" "action" .stopped "success"

/-! ## Learning agent (`src/agents/learning_agent.py`) -/

/-- A history entry built by `LearningAgent.log_action`. -/
structure LogEntry where
  timestamp : String
  action : Option String
  object : Option String
  result : String
  duration : ℚ
  error : Option String
deriving Repr, DecidableEq

/-- The `action_data` dict passed to `log_action`; every key is read with
`.get`, so every field may be absent. -/
structure ActionData where
  action : Option String
  object : Option String
  result : Option String
  duration : Option ℚ
  error : Option String
deriving Repr, DecidableEq

/-- `self.performance_stats`. -/
structure PerfStats where
  total_actions : ℕ
  successful_actions : ℕ
  failed_actions : ℕ
  success_rate : ℚ
deriving Repr, DecidableEq

/-- One bucket of `self.object_stats`. -/
structure ObjStats where
  attempts : ℕ
  successes : ℕ
  failures : ℕ
  success_rate : ℚ
deriving Repr, DecidableEq

/-- In-memory state of `LearningAgent`. `object_stats` is an
insertion-ordered association list, matching Python dict semantics. -/
structure LearningState where
  action_history : List LogEntry
  performance_stats : PerfStats
  object_stats : List (String × ObjStats)
deriving Repr, DecidableEq

/-- The state of a freshly constructed `LearningAgent` when no previous
log file exists. -/
def initialLearningState : LearningState :=
  ⟨[], ⟨0, 0, 0, 0⟩, []⟩

/-- The JSON document written by `_save_history`:
`{history, stats, object_stats, last_updated}`. -/
structure SavedData where
  history : List LogEntry
  stats : PerfStats
  object_stats : List (String × ObjStats)
  last_updated : String
deriving Repr, DecidableEq

/-- Python `self.object_stats[k]` lookup. -/
def getObjStats (m : List (String × ObjStats)) (k : String) :
    Option ObjStats :=
  (m.find? (·.1 = k)).map (·.2)

/-- Python `self.object_stats[k] = v`: update in place if the key exists,
else append (dict insertion order). -/
def setObjStats : List (String × ObjStats) → String → ObjStats →
    List (String × ObjStats)
  | [], k, v => [(k, v)]
  | (k', v') :: rest, k, v =>
      if k' = k then (k, v) :: rest else (k', v') :: setObjStats rest k v

/-- `LearningAgent._update_stats`: bump the overall counters, recompute
`success_rate = successful/total*100` (0 when total = 0), and, when
`log_entry.get("object")` is truthy (neither `None` nor `""`), do the same
for that object's bucket. -/
def update_stats (s : LearningState) (e : LogEntry) : LearningState :=
  let ps := s.performance_stats
  let total := ps.total_actions + 1
  let successful :=
    ps.successful_actions + (if e.result = "success" then 1 else 0)
  let failed :=
    ps.failed_actions + (if e.result = "failure" then 1 else 0)
  let rate : ℚ :=
    if total > 0 then (successful : ℚ) / (total : ℚ) * 100 else 0
  let ps' : PerfStats := ⟨total, successful, failed, rate⟩
  let objStats' :=
    match e.object with
    | none => s.object_stats
    | some obj =>
        if obj = "" then s.object_stats
        else
          let cur := (getObjStats s.object_stats obj).getD ⟨0, 0, 0, 0⟩
          let attempts := cur.attempts + 1
          let succ :=
            cur.successes + (if e.result = "success" then 1 else 0)
          let fail :=
            cur.failures + (if e.result = "failure" then 1 else 0)
          let orate : ℚ :=
            if attempts > 0 then (succ : ℚ) / (attempts : ℚ) * 100 else 0
          setObjStats s.object_stats obj ⟨attempts, succ, fail, orate⟩
  { s with performance_stats := ps', object_stats := objStats' }

/-- `LearningAgent._save_history`: rewrite the whole file with the current
state; any exception is caught inside (`writeFails = true` models a failed
write, which leaves the disk as it was and does not raise). `now` is the
`datetime.now().isoformat()` value for `last_updated`. -/
def save_history (s : LearningState) (now : String)
    (disk : Option SavedData) (writeFails : Bool) : Option SavedData :=
  if writeFails then disk
  else some ⟨s.action_history, s.performance_stats, s.object_stats, now⟩

/-- The history entry `log_action` builds from `action_data`: a missing
`result` becomes `"unknown"`, a missing `duration` becomes `0`. -/
def mkLogEntry (a : ActionData) (ts : String) : LogEntry :=
  ⟨ts, a.action, a.object, a.result.getD "unknown", a.duration.getD 0,
   a.error⟩

/-- `LEARNING_CONFIG["save_frequency"]` from `src/config/settings.py`. -/
def save_frequency : ℕ := 10

/-- `LearningAgent.log_action`: append the entry, update statistics, and
save when `len(self.action_history) % save_frequency == 0`. `N` is the
configured `save_frequency`, `ts` the timestamp of this call. -/
def log_action (N : ℕ) (writeFails : Bool) (s : LearningState)
    (disk : Option SavedData) (a : ActionData) (ts : String) :
    LearningState × Option SavedData :=
  let e := mkLogEntry a ts
  let s1 : LearningState :=
    { s with action_history := s.action_history ++ [e] }
  let s2 := update_stats s1 e
  let disk' :=
    if s2.action_history.length % N == 0 then
      save_history s2 ts disk writeFails
    else disk
  (s2, disk')

/-- A whole run of `log_action` calls, threading state and disk. -/
def run_logs (N : ℕ) (writeFails : Bool) (s : LearningState)
    (disk : Option SavedData) (actions : List (ActionData × String)) :
    LearningState × Option SavedData :=
  actions.foldl (fun acc a => log_action N writeFails acc.1 acc.2 a.1 a.2)
    (s, disk)

/-- The recommendation strings of `_generate_recommendations`. -/
def lowMsg : String :=
  "⚠️ Low success rate - Check camera positioning and lighting"

/-- Moderate-success recommendation string. -/
def moderateMsg : String :=
  "⚠️ Moderate success rate - Consider recalibrating vision system"

/-- Good-success recommendation string. -/
def goodMsg : String :=
  "✅ Good success rate - System performing well"

/-- Per-object difficulty recommendation string (Python f-string). -/
def difficultyMsg (obj : String) : String :=
  "⚠️ Difficulty grasping " ++ obj ++ " - May need custom grip strategy"

/-- Maintenance recommendation string. -/
def maintenanceMsg : String :=
  "🔴 Multiple recent failures - System may need maintenance"

/-- `LearningAgent._generate_recommendations`: the overall-rate message
(`< 50` low, `elif < 70` moderate, else good), then one append per
`object_stats` entry with `success_rate < 50 and attempts > 3` (the
`for`-loop is a fold appending in dict order), then the maintenance
message if at least 5 of the last 10 history entries are failures. -/
def generate_recommendations (s : LearningState) : List String :=
  let recs :=
    if s.performance_stats.success_rate < 50 then [lowMsg]
    else if s.performance_stats.success_rate < 70 then [moderateMsg]
    else [goodMsg]
  let recs := s.object_stats.foldl
    (fun acc p =>
      if p.2.success_rate < 50 ∧ p.2.attempts > 3 then
        acc ++ [difficultyMsg p.1]
      else acc)
    recs
  let recent_failures :=
    (lastN 10 s.action_history).filter (fun e => e.result = "failure")
  if recent_failures.length ≥ 5 then recs ++ [maintenanceMsg] else recs

/-- Payload of `get_performance_report`. -/
structure Report where
  overall_performance : PerfStats
  object_performance : List (String × ObjStats)
  recent_actions : List LogEntry
  recommendations : List String
deriving Repr, DecidableEq

/-- `LearningAgent.get_performance_report`: always a success envelope. -/
def get_performance_report (ts : String) (s : LearningState) :
    Envelope Report :=
  create_message ts "learning_agent" "report"
    ⟨s.performance_stats, s.object_stats, lastN 10 s.action_history,
     generate_recommendations s⟩
    "success"

/-! ## Coordinator (`src/agents/master_agent.py`) -/

/-- `motor_result["data"].get("error")` on a motor `action` payload. -/
def MotorActionData.errorField : MotorActionData → Option String
  | .pickErr e => some e
  | .placeErr e => some e
  | _ => none

/-- `MasterAgent._handle_pick`. Inputs: the target object from the intent
result (`none`/`""` are falsy → immediate return, nothing logged), the
vision agent's `find_object` envelope, the motor agent's `pick_object`
envelope (consulted only when the object was found), and the elapsed wall
times `d1` (at the not-found log) and `d2` (after actuation). Returns the
list of `log_action` argument dicts the handler produces, in order. -/
def handle_pick (target_object : Option String)
    (vision : Envelope FindData) (motor : Envelope MotorActionData)
    (d1 d2 : ℚ) : List ActionData :=
  match target_object with
  | none => []
  | some t =>
      if t = "" then []
      else if vision.status ≠ "success" ∨ vision.data.foundFlag = false then
        [⟨some "pick", some t, some "failure", some d1,
          some "Object not found"⟩]
      else if motor.status = "success" then
        [⟨some "pick", some t, some "success", some d2, none⟩]
      else
        [⟨some "pick", some t, some "failure", some d2,
          motor.data.errorField⟩]

/-- `MasterAgent._handle_place`: always exactly one entry, object
`target_object or "unknown"`. -/
def handle_place (target_object : Option String)
    (motor : Envelope MotorActionData) (d : ℚ) : List ActionData :=
  let objName :=
    match target_object with
    | none => "unknown"
    | some t => if t = "" then "unknown" else t
  if motor.status = "success" then
    [⟨some "place", some objName, some "success", some d, none⟩]
  else
    [⟨some "place", some objName, some "failure", some d, none⟩]

/-- `MasterAgent._process_command`, projected onto the `log_action` calls
it performs. A non-success speech envelope aborts the cycle with no entry;
`stop`, `show` and unknown actions log nothing; `pick` and `place` defer
to their handlers. -/
def process_command (speech : Envelope IntentData)
    (vision : Envelope FindData) (motorPick motorPlace : Envelope MotorActionData)
    (d1 d2 dPlace : ℚ) : List ActionData :=
  if speech.status ≠ "success" then []
  else
    match speech.data with
    | .noSpeech _ => []
    | .intent action object _ _ =>
        match action with
        | some "stop" => []
        | some "show" => []
        | some "pick" => handle_pick object vision motorPick d1 d2
        | some "place" => handle_place object motorPlace dPlace
        | _ => []

/-- `MasterAgent.stop`, projected onto the persisted ledger file. The
method releases the camera and calls `learning_agent.print_statistics()`
— it performs no `_save_history` call, so the disk is returned
unchanged whatever the in-memory ledger state is. -/
def master_stop (_s : LearningState) (disk : Option SavedData) :
    Option SavedData :=
  disk

/-! ## Claim statements and sample inputs -/

/-- The claimed tier characterisation of `estimate_position` for a frame
of size `w × h`: horizontal/vertical tiers split at the 0.33/0.66
fractions (lower comparison strict, so a centre exactly at a threshold
falls in the higher tier), and depth tiers split at area ratios
0.15/0.08/0.03 (strict, so a ratio exactly at a threshold falls in the
farther tier). -/
def positionBucketSpec (w h : ℤ) (d : Detection) : Prop :=
  ((estimate_position w h d).horizontal = "left" ↔
    (d.bbox.center_x : ℚ) < 33/100 * w) ∧
  ((estimate_position w h d).horizontal = "center" ↔
    33/100 * w ≤ (d.bbox.center_x : ℚ) ∧
      (d.bbox.center_x : ℚ) < 66/100 * w) ∧
  ((estimate_position w h d).horizontal = "right" ↔
    66/100 * w ≤ (d.bbox.center_x : ℚ)) ∧
  ((estimate_position w h d).vertical = "top" ↔
    (d.bbox.center_y : ℚ) < 33/100 * h) ∧
  ((estimate_position w h d).vertical = "middle" ↔
    33/100 * h ≤ (d.bbox.center_y : ℚ) ∧
      (d.bbox.center_y : ℚ) < 66/100 * h) ∧
  ((estimate_position w h d).vertical = "bottom" ↔
    66/100 * h ≤ (d.bbox.center_y : ℚ)) ∧
  ((estimate_position w h d).depth = "very_close" ↔
    15/100 < ((d.bbox.width * d.bbox.height : ℤ) : ℚ) / ((w : ℚ) * h)) ∧
  ((estimate_position w h d).depth = "close" ↔
    8/100 < ((d.bbox.width * d.bbox.height : ℤ) : ℚ) / ((w : ℚ) * h) ∧
      ((d.bbox.width * d.bbox.height : ℤ) : ℚ) / ((w : ℚ) * h) ≤ 15/100) ∧
  ((estimate_position w h d).depth = "medium" ↔
    3/100 < ((d.bbox.width * d.bbox.height : ℤ) : ℚ) / ((w : ℚ) * h) ∧
      ((d.bbox.width * d.bbox.height : ℤ) : ℚ) / ((w : ℚ) * h) ≤ 8/100) ∧
  ((estimate_position w h d).depth = "far" ↔
    ((d.bbox.width * d.bbox.height : ℤ) : ℚ) / ((w : ℚ) * h) ≤ 3/100)

/-- A sample detection used to instantiate hypotheses of the claim
theorems: a 100×100 box at the top-left of a 640×480 frame. -/
def sampleDetection : Detection :=
  ⟨"bottle", 9/10, mkBBox 0 0 100 100, true⟩

/-- The claimed contract of `find_object` on a captured frame: it returns
the success envelope of `det` exactly when `det` is the first detection in
detector output order that matches the query (case-insensitive substring
on the class name, and graspable), and the `found = false` error envelope
exactly when no detection matches. No confidence-based ranking occurs:
which detection is returned depends only on order and the match test. -/
def findObjectSpec (ts : String) (w h : ℤ) (dets : List Detection)
    (target : String) : Prop :=
  (∀ det, find_object ts w h (some dets) target =
      ⟨ts, "vision_agent", "detection",
        .foundObj det (estimate_position w h det), "success"⟩ →
    matchesTarget target det = true ∧
    ∃ pre post, dets = pre ++ det :: post ∧
      ∀ x ∈ pre, matchesTarget target x = false) ∧
  (∀ pre det post, dets = pre ++ det :: post →
    (∀ x ∈ pre, matchesTarget target x = false) →
    matchesTarget target det = true →
    find_object ts w h (some dets) target =
      ⟨ts, "vision_agent", "detection",
        .foundObj det (estimate_position w h det), "success"⟩) ∧
  ((∀ x ∈ dets, matchesTarget target x = false) →
    find_object ts w h (some dets) target =
      ⟨ts, "vision_agent", "detection",
        .notFound target dets.length, "error"⟩)

/-- A second matching candidate, further down the detector output. -/
def sampleDetection2 : Detection :=
  ⟨"bottle", 99/100, mkBBox 200 200 400 400, true⟩

/-- The claimed contract of `extract_keywords`: confidence is exactly the
sum of +0.5 for an action hit and +0.5 for an object hit (hence always in
{0, 0.5, 1}), the action is the first category of the fixed table any of
whose synonyms occurs in the text, and the object is the first known
object occurring in the text. -/
def keywordConfidenceSpec (text : String) : Prop :=
  ((extract_keywords text).confidence = 0 ∨
    (extract_keywords text).confidence = 1/2 ∨
    (extract_keywords text).confidence = 1) ∧
  ((extract_keywords text).confidence = 1 ↔
    (extract_keywords text).action.isSome ∧
    (extract_keywords text).object.isSome) ∧
  ((extract_keywords text).confidence = 0 ↔
    (extract_keywords text).action = none ∧
    (extract_keywords text).object = none) ∧
  ((extract_keywords text).confidence = 1/2 ↔
    ((extract_keywords text).action.isSome ∧
      (extract_keywords text).object = none) ∨
    ((extract_keywords text).action = none ∧
      (extract_keywords text).object.isSome)) ∧
  (∀ a, (extract_keywords text).action = some a →
    ∃ pre syns post, action_keywords = pre ++ (a, syns) :: post ∧
      (∀ p ∈ pre, p.2.any (fun k => strContains text k) = false) ∧
      syns.any (fun k => strContains text k) = true) ∧
  (∀ o, (extract_keywords text).object = some o →
    ∃ pre post, known_objects = pre ++ o :: post ∧
      (∀ x ∈ pre, strContains text x = false) ∧
      strContains text o = true)

/-- The claimed contract of the NLU delegation in `get_command` (for a
non-empty recognised text): Gemini is consulted exactly when the keyword
confidence is below the threshold and Gemini is enabled, its result then
replaces the keyword result verbatim; a raised/unparsable Gemini reply
degrades to `{action: None, object: None, confidence: 0.0}`. Totality of
`get_command` (it always returns one envelope, never raising) is by
construction of the embedding. -/
def nluDelegationSpec (ts text : String) (use_gemini : Bool)
    (oracle : Except String KwResult) : Prop :=
  ((extract_keywords text).confidence < confidence_threshold ∧
      use_gemini = true →
    get_command ts (some text) use_gemini oracle =
      create_message ts "speech_agent" "intent"
        (.intent (extract_with_gemini oracle).action
          (extract_with_gemini oracle).object
          (extract_with_gemini oracle).confidence text)
        (if (extract_with_gemini oracle).action.isSome then "success"
         else "error")) ∧
  (¬((extract_keywords text).confidence < confidence_threshold ∧
      use_gemini = true) →
    get_command ts (some text) use_gemini oracle =
      create_message ts "speech_agent" "intent"
        (.intent (extract_keywords text).action
          (extract_keywords text).object
          (extract_keywords text).confidence text)
        (if (extract_keywords text).action.isSome then "success"
         else "error")) ∧
  (∀ e, extract_with_gemini (.error e) = ⟨none, none, 0⟩)

/-- Valid envelope statuses per the message contract. -/
def statusOk3 (st : String) : Prop :=
  st = "success" ∨ st = "error" ∨ st = "warning"

/-- A `MotorAgent` configured with `simulation_mode = False` (the
unimplemented hardware mode), position dicts modelled as strings. -/
def hardwareMotorState : MotorState String :=
  ⟨false, "home", true⟩

/-- The amended uniform-envelope property: every embedded service call
returns exactly one envelope with a valid status — for the three motor
primitives this holds in simulation mode (hypothesis on `m`), while in
hardware mode they return `none` (see the counterexample). -/
def uniformEnvelopeSpec {π : Type} (ts : String) (w h : ℤ)
    (frame : Option (List Detection)) (target : String)
    (listenResult : Option String) (use_gemini : Bool)
    (oracle : Except String KwResult) (s : LearningState)
    (m : MotorState π) (pos : π) (info : ObjectInfo π) : Prop :=
  statusOk3 (find_object ts w h frame target).status ∧
  statusOk3 (scan_scene ts frame).status ∧
  statusOk3 (get_command ts listenResult use_gemini oracle).status ∧
  (get_performance_report ts s).status = "success" ∧
  (∃ env, (move_to_position ts m pos).2 = some env ∧
    env.status = "success") ∧
  (∃ env, (open_gripper ts m).2 = some env ∧ env.status = "success") ∧
  (∃ env, (close_gripper ts m).2 = some env ∧ env.status = "success") ∧
  (pick_object ts m info).2.status = "success" ∧
  (place_object ts m pos).2.status = "success" ∧
  (motor_stop ts).status = "success"

/-- An `action_data` dict with every key absent. -/
def emptyActionData : ActionData :=
  ⟨none, none, none, none, none⟩

/-- The claimed robustness of `log_action`: the in-memory update (append
plus statistics) is identical whether or not the flush fails, a failed
flush leaves the disk untouched and raises nothing (totality of the
embedding), and absent `result`/`duration` keys default to
`"unknown"`/`0`. -/
def logActionRobustSpec (s : LearningState) (disk : Option SavedData)
    (a : ActionData) (ts : String) (N : ℕ) : Prop :=
  ((log_action N true s disk a ts).1 = (log_action N false s disk a ts).1) ∧
  ((log_action N true s disk a ts).1.action_history =
    s.action_history ++ [mkLogEntry a ts]) ∧
  ((log_action N true s disk a ts).2 = disk) ∧
  (a.result = none → (mkLogEntry a ts).result = "unknown") ∧
  (a.duration = none → (mkLogEntry a ts).duration = 0) ∧
  ((log_action N true s disk a ts).1.performance_stats =
    (update_stats
      { s with action_history := s.action_history ++ [mkLogEntry a ts] }
      (mkLogEntry a ts)).performance_stats)

/-- The claim's success-rate consistency for one object bucket:
`success_rate = successes/attempts*100`, `0` when `attempts = 0`. -/
def objConsistent (o : ObjStats) : Prop :=
  o.success_rate =
    if o.attempts = 0 then 0
    else (o.successes : ℚ) / (o.attempts : ℚ) * 100

/-- The claim's success-rate consistency: the overall rate and every
per-object rate in a ledger state satisfy the `successes/attempts*100`
recurrence (0 when no attempts). -/
def statsConsistent (s : LearningState) : Prop :=
  (s.performance_stats.success_rate =
    if s.performance_stats.total_actions = 0 then 0
    else (s.performance_stats.successful_actions : ℚ) /
      (s.performance_stats.total_actions : ℚ) * 100) ∧
  ∀ p ∈ s.object_stats, objConsistent p.2

/-- Convenience constructor for a fully populated `action_data` dict. -/
def mkActionData (act obj result : String) (dur : ℚ)
    (err : Option String) : ActionData :=
  ⟨some act, some obj, some result, some dur, err⟩

/-- The three-action scenario of the specification:
`{pick,bottle,success,3.2}`, `{pick,cup,success,2.8}`,
`{pick,bottle,failure,4.5}`. -/
def scenarioActions : List (ActionData × String) :=
  [(mkActionData "pick" "bottle" "success" (16/5) none, "t1"),
   (mkActionData "pick" "cup" "success" (14/5) none, "t2"),
   (mkActionData "pick" "bottle" "failure" (9/2)
     (some "Object not found"), "t3")]

/-- Ledger state after logging the scenario actions from a fresh agent. -/
def scenarioState : LearningState :=
  (run_logs 10 false initialLearningState none scenarioActions).1

/-- The scenario's expected outcome: overall `{total: 3, success: 2,
failure: 1, rate: 2/3*100}` and bottle `{attempts: 2, successes: 1,
failures: 1, rate: 50}`. -/
def ledgerScenarioSpec : Prop :=
  scenarioState.performance_stats = ⟨3, 2, 1, 200/3⟩ ∧
  getObjStats scenarioState.object_stats "bottle" = some ⟨2, 1, 1, 50⟩

/-- The amended recommendation contract (`attempts > 3`, i.e. at least 4,
where the claim said at least 3): exactly one overall message chosen by
the `< 50` / `< 70` / otherwise chain, then one difficulty warning per
qualifying object in insertion order, then the maintenance warning
exactly when at least 5 of the last 10 entries are failures. -/
def recommendationsSpec (s : LearningState) : Prop :=
  generate_recommendations s =
    (if s.performance_stats.success_rate < 50 then [lowMsg]
     else if s.performance_stats.success_rate < 70 then [moderateMsg]
     else [goodMsg]) ++
    s.object_stats.filterMap
      (fun p =>
        if p.2.success_rate < 50 ∧ p.2.attempts > 3 then
          some (difficultyMsg p.1)
        else none) ++
    (if ((lastN 10 s.action_history).filter
        (fun e => e.result = "failure")).length ≥ 5 then
      [maintenanceMsg]
     else [])

/-- Three failed pick attempts on "cup": the object then has exactly 3
attempts and a 0% success rate. -/
def c4Actions : List (ActionData × String) :=
  [(mkActionData "pick" "cup" "failure" 1 (some "Object not found"), "t1"),
   (mkActionData "pick" "cup" "failure" 1 (some "Object not found"), "t2"),
   (mkActionData "pick" "cup" "failure" 1 (some "Object not found"), "t3")]

/-- Ledger state after the three failed cup picks. -/
def c4State : LearningState :=
  (run_logs 10 false initialLearningState none c4Actions).1

/-- The snapshot `_save_history` writes for state `s` at time `ts`. -/
def mkSnapshot (s : LearningState) (ts : String) : SavedData :=
  ⟨s.action_history, s.performance_stats, s.object_stats, ts⟩

/-- Nine `log_action` calls from a fresh agent with the default
`save_frequency = 10` and an empty starting disk. -/
def c3Run9 : LearningState × Option SavedData :=
  run_logs 10 false initialLearningState none
    (List.replicate 9 (mkActionData "pick" "cup" "failure" 1 none, "t"))

/-- The claimed pick-workflow ledger discipline (amended: a success-status
pick intent whose object is `None` or `""` logs nothing, because
`_handle_pick` returns before touching perception). For a real object
name: exactly one entry always; the not-found/vision-failure entry carries
error `"Object not found"` and duration `d1`; otherwise the single entry
mirrors the actuation envelope. -/
def pickWorkflowSpec (tobj : Option String) (vision : Envelope FindData)
    (motor : Envelope MotorActionData) (d1 d2 : ℚ) : Prop :=
  (tobj = none → handle_pick tobj vision motor d1 d2 = []) ∧
  (tobj = some "" → handle_pick tobj vision motor d1 d2 = []) ∧
  (∀ t, tobj = some t → t ≠ "" →
    (handle_pick tobj vision motor d1 d2).length = 1) ∧
  (∀ t, tobj = some t → t ≠ "" →
    (vision.status ≠ "success" ∨ vision.data.foundFlag = false) →
    handle_pick tobj vision motor d1 d2 =
      [⟨some "pick", some t, some "failure", some d1,
        some "Object not found"⟩]) ∧
  (∀ t, tobj = some t → t ≠ "" → vision.status = "success" →
    vision.data.foundFlag = true → motor.status = "success" →
    handle_pick tobj vision motor d1 d2 =
      [⟨some "pick", some t, some "success", some d2, none⟩]) ∧
  (∀ t, tobj = some t → t ≠ "" → vision.status = "success" →
    vision.data.foundFlag = true → motor.status ≠ "success" →
    handle_pick tobj vision motor d1 d2 =
      [⟨some "pick", some t, some "failure", some d2,
        motor.data.errorField⟩])

/-- A success-status intent envelope carrying `action = "pick"` with no
object — reachable, e.g. "pick it up" matches the `pick` synonyms but no
known object, and with Gemini disabled the keyword result is used with
status `"success"` since an action is present. -/
def c1speech : Envelope IntentData :=
  ⟨"t0", "speech_agent", "intent",
    .intent (some "pick") none (1/2) "pick it up", "success"⟩

/-- A successful `find_object` envelope (concrete). -/
def c1visionFound : Envelope FindData :=
  ⟨"t0", "vision_agent", "detection",
    .foundObj sampleDetection (estimate_position 640 480 sampleDetection),
    "success"⟩

/-- A successful motor `pick_object` envelope (concrete). -/
def motorOkEnvelope : Envelope MotorActionData :=
  ⟨"t0", "motor_agent", "action", .pickOk (some "bottle"), "success"⟩

/-- A simulation-mode motor state over string positions. -/
def simMotorState : MotorState String :=
  ⟨true, "home", true⟩

/-! ## General helper lemmas -/

/-- A three-way `if`-chain takes each of three distinct values exactly
under the corresponding condition. -/
theorem ifChain3 {α : Type} [DecidableEq α] (c1 c2 : Prop) [Decidable c1]
    [Decidable c2] (s1 s2 s3 : α) (h12 : s1 ≠ s2) (h13 : s1 ≠ s3)
    (h23 : s2 ≠ s3) :
    ((if c1 then s1 else if c2 then s2 else s3) = s1 ↔ c1) ∧
    ((if c1 then s1 else if c2 then s2 else s3) = s2 ↔ ¬c1 ∧ c2) ∧
    ((if c1 then s1 else if c2 then s2 else s3) = s3 ↔ ¬c1 ∧ ¬c2) := by
  split_ifs with h1 h2 <;>
    simp_all [Ne.symm h12, Ne.symm h13, Ne.symm h23]

/-- A four-way `if`-chain takes each of four distinct values exactly under
the corresponding condition. -/
theorem ifChain4 {α : Type} [DecidableEq α] (c1 c2 c3 : Prop)
    [Decidable c1] [Decidable c2] [Decidable c3] (s1 s2 s3 s4 : α)
    (h12 : s1 ≠ s2) (h13 : s1 ≠ s3) (h14 : s1 ≠ s4) (h23 : s2 ≠ s3)
    (h24 : s2 ≠ s4) (h34 : s3 ≠ s4) :
    ((if c1 then s1 else if c2 then s2 else if c3 then s3 else s4) = s1 ↔
      c1) ∧
    ((if c1 then s1 else if c2 then s2 else if c3 then s3 else s4) = s2 ↔
      ¬c1 ∧ c2) ∧
    ((if c1 then s1 else if c2 then s2 else if c3 then s3 else s4) = s3 ↔
      ¬c1 ∧ ¬c2 ∧ c3) ∧
    ((if c1 then s1 else if c2 then s2 else if c3 then s3 else s4) = s4 ↔
      ¬c1 ∧ ¬c2 ∧ ¬c3) := by
  split_ifs with h1 h2 h3 <;>
    simp_all [Ne.symm h12, Ne.symm h13, Ne.symm h14, Ne.symm h23,
      Ne.symm h24, Ne.symm h34]

/-- `List.find?` returns the first hit: a successful search splits the
list into a miss-only prefix, the hit, and a remainder. -/
theorem find?_first {α : Type} {p : α → Bool} :
    ∀ {l : List α} {a : α}, l.find? p = some a →
      ∃ pre post, l = pre ++ a :: post ∧ (∀ x ∈ pre, p x = false) ∧
        p a = true
  | [], a => by simp [List.find?]
  | b :: t, a => by
      intro h
      by_cases hb : p b
      · refine ⟨[], t, ?_, by simp, ?_⟩ <;>
          simp_all [List.find?_cons_of_pos]
      · rw [List.find?_cons_of_neg _ (by simp_all)] at h
        obtain ⟨pre, post, rfl, hpre, hpa⟩ := find?_first h
        exact ⟨b :: pre, post, rfl, by simp_all, hpa⟩

/-- Appending under a guarded fold is collecting the guarded hits:
the recommendation `for`-loop as a `filterMap`. -/
theorem foldl_guard_append {α β : Type} (c : α → Prop) [DecidablePred c]
    (g : α → β) :
    ∀ (l : List α) (acc : List β),
      l.foldl (fun acc x => if c x then acc ++ [g x] else acc) acc =
        acc ++ l.filterMap (fun x => if c x then some (g x) else none)
  | [], acc => by simp
  | x :: t, acc => by
      by_cases hx : c x <;>
        simp [List.foldl_cons, hx, foldl_guard_append c g t]

/-- Every entry of `setObjStats m k v` is the new pair or an old entry. -/
theorem setObjStats_mem :
    ∀ {m : List (String × ObjStats)} {k : String} {v : ObjStats}
      {q : String × ObjStats}, q ∈ setObjStats m k v →
        q = (k, v) ∨ q ∈ m
  | [], k, v, q => by simp [setObjStats]
  | (k', v') :: rest, k, v, q => by
      simp only [setObjStats]
      split
      · intro h
        rcases List.mem_cons.mp h with h | h
        · exact .inl h
        · exact .inr (List.mem_cons_of_mem _ h)
      · intro h
        rcases List.mem_cons.mp h with h | h
        · exact .inr (h ▸ List.mem_cons_self _ _)
        · rcases setObjStats_mem h with h | h
          · exact .inl h
          · exact .inr (List.mem_cons_of_mem _ h)

/-! ## Claim C5: position bucketing -/

/-- C5 — Position bucketing is a pure function of the bounding box and
positive frame size, with the tier boundaries resolving exactly per the
stated strict comparisons (0.33/0.66 for the plane, 0.03/0.08/0.15 for
depth). Purity is inherent: `estimate_position` is a function of exactly
these arguments. -/
theorem C5_position_bucketing (w h : ℤ) (d : Detection)
    (hw : 0 < w) (hh : 0 < h) : positionBucketSpec w h d := by
  have hw' : (0:ℚ) < (w : ℚ) := by exact_mod_cast hw
  have hh' : (0:ℚ) < (h : ℚ) := by exact_mod_cast hh
  obtain ⟨H1, H2, H3⟩ :=
    ifChain3 ((d.bbox.center_x : ℚ) < (w : ℚ) * (33/100))
      ((d.bbox.center_x : ℚ) < (w : ℚ) * (66/100))
      "left" "center" "right" (by decide) (by decide) (by decide)
  obtain ⟨V1, V2, V3⟩ :=
    ifChain3 ((d.bbox.center_y : ℚ) < (h : ℚ) * (33/100))
      ((d.bbox.center_y : ℚ) < (h : ℚ) * (66/100))
      "top" "middle" "bottom" (by decide) (by decide) (by decide)
  obtain ⟨D1, D2, D3, D4⟩ :=
    ifChain4
      (((d.bbox.width * d.bbox.height : ℤ) : ℚ) / ((w : ℚ) * h) > 15/100)
      (((d.bbox.width * d.bbox.height : ℤ) : ℚ) / ((w : ℚ) * h) > 8/100)
      (((d.bbox.width * d.bbox.height : ℤ) : ℚ) / ((w : ℚ) * h) > 3/100)
      "very_close" "close" "medium" "far"
      (by decide) (by decide) (by decide) (by decide) (by decide)
      (by decide)
  refine ⟨?_, ?_, ?_, ?_, ?_, ?_, ?_, ?_, ?_, ?_⟩ <;>
    simp only [estimate_position]
  · rw [H1]; constructor <;> intro hx <;> linarith
  · rw [H2]
    constructor
    · rintro ⟨h1, h2⟩; exact ⟨by linarith [not_lt.mp h1], by linarith⟩
    · rintro ⟨h1, h2⟩; exact ⟨not_lt.mpr (by linarith), by linarith⟩
  · rw [H3]
    constructor
    · rintro ⟨h1, h2⟩; linarith [not_lt.mp h2]
    · intro hx
      exact ⟨not_lt.mpr (by linarith), not_lt.mpr (by linarith)⟩
  · rw [V1]; constructor <;> intro hx <;> linarith
  · rw [V2]
    constructor
    · rintro ⟨h1, h2⟩; exact ⟨by linarith [not_lt.mp h1], by linarith⟩
    · rintro ⟨h1, h2⟩; exact ⟨not_lt.mpr (by linarith), by linarith⟩
  · rw [V3]
    constructor
    · rintro ⟨h1, h2⟩; linarith [not_lt.mp h2]
    · intro hx
      exact ⟨not_lt.mpr (by linarith), not_lt.mpr (by linarith)⟩
  · rw [D1]
  · rw [D2]
    constructor
    · rintro ⟨h1, h2⟩; exact ⟨h2, by linarith [not_lt.mp h1]⟩
    · rintro ⟨h1, h2⟩; exact ⟨not_lt.mpr (by linarith), h1⟩
  · rw [D3]
    constructor
    · rintro ⟨h1, h2, h3⟩; exact ⟨h3, by linarith [not_lt.mp h2]⟩
    · rintro ⟨h1, h2⟩
      exact ⟨not_lt.mpr (by linarith), not_lt.mpr (by linarith), h1⟩
  · rw [D4]
    constructor
    · rintro ⟨h1, h2, h3⟩; linarith [not_lt.mp h3]
    · intro hx
      exact ⟨not_lt.mpr (by linarith), not_lt.mpr (by linarith),
        not_lt.mpr (by linarith)⟩

/-- Witness for C5 at a concrete input: frame 640×480. -/
theorem C5_position_bucketing_witness :
    positionBucketSpec 640 480 sampleDetection :=
  C5_position_bucketing 640 480 sampleDetection (by decide) (by decide)

/-- `List.find?` does return the hit after a miss-only prefix. -/
theorem find?_of_first {α : Type} {p : α → Bool} :
    ∀ (pre : List α) (a : α) (post : List α),
      (∀ x ∈ pre, p x = false) → p a = true →
        (pre ++ a :: post).find? p = some a
  | [], a, post => by
      intro _ ha
      simp [List.find?_cons_of_pos, ha]
  | b :: pre, a, post => by
      intro hpre ha
      rw [List.cons_append,
        List.find?_cons_of_neg _ (by simp [hpre b (by simp)])]
      exact find?_of_first pre a post
        (fun x hx => hpre x (by simp [hx])) ha

/-! ## Claim C6: `find_object` is first-match-wins -/

/-- C6 — `find_object` returns the first graspable, name-matching
detection in detector output order wrapped in a success envelope with its
position, and a `found = false` error envelope when nothing matches. -/
theorem C6_find_object_first_match (ts : String) (w h : ℤ)
    (dets : List Detection) (target : String) :
    findObjectSpec ts w h dets target := by
  refine ⟨?_, ?_, ?_⟩
  · intro det hdet
    rcases hfind : dets.find? (matchesTarget target) with _ | d
    · simp [find_object, create_message, hfind] at hdet
    · simp only [find_object, create_message, hfind] at hdet
      obtain ⟨-, -, -, hdata, -⟩ := Envelope.mk.injEq .. ▸ hdet
      obtain ⟨rfl, -⟩ := FindData.foundObj.injEq .. ▸ hdata
      obtain ⟨pre, post, rfl, hpre, hp⟩ := find?_first hfind
      exact ⟨hp, pre, post, rfl, hpre⟩
  · intro pre det post hdecomp hpre hdet
    subst hdecomp
    simp [find_object, create_message, find?_of_first pre det post hpre hdet]
  · intro hnone
    have : dets.find? (matchesTarget target) = none :=
      List.find?_eq_none.mpr (by simpa using hnone)
    simp [find_object, create_message, this]

/-- Witness for C6: with two matching candidates in the detector output,
the first one (the lower-confidence one) is returned. -/
theorem C6_find_object_first_match_witness :
    find_object "t0" 640 480 (some [sampleDetection, sampleDetection2])
      "bottle" =
    ⟨"t0", "vision_agent", "detection",
      .foundObj sampleDetection (estimate_position 640 480 sampleDetection),
      "success"⟩ :=
  (C6_find_object_first_match "t0" 640 480
    [sampleDetection, sampleDetection2] "bottle").2.1
    [] sampleDetection [sampleDetection2] rfl (by simp) (by decide)

/-! ## Claim C7: additive keyword confidence -/

/-- C7 — keyword extraction confidence is additive over the two
first-match lookups: 0.5 per hit, so always in {0, 0.5, 1}; the action is
the first matching category of the fixed table, the object the first
matching known object. -/
theorem C7_keyword_confidence (text : String) :
    keywordConfidenceSpec text := by
  unfold keywordConfidenceSpec
  rcases haa : action_keywords.find?
      (fun p => p.2.any fun k => strContains text k) with _ | pa <;>
    rcases hoo : known_objects.find? (fun o => strContains text o)
      with _ | o <;>
    simp only [extract_keywords, haa, hoo, Option.map_some',
      Option.map_none', Option.isSome_some, Option.isSome_none,
      Bool.false_eq_true, if_false, if_true, reduceCtorEq, false_and,
      and_false, true_and, and_true, Option.some.injEq]
  · exact ⟨by norm_num, by norm_num, by norm_num, by norm_num,
      fun a hx => absurd hx (by simp),
      fun o hx => absurd hx (by simp)⟩
  · refine ⟨by norm_num, by norm_num, by norm_num, by norm_num,
      fun a hx => absurd hx (by simp), fun o' ho' => ?_⟩
    obtain ⟨pre, post, hdec, hpre, hp⟩ := find?_first hoo
    exact ⟨pre, post, by simp_all⟩
  · refine ⟨by norm_num, by norm_num, by norm_num, by norm_num,
      fun a ha' => ?_, fun o hx => absurd hx (by simp)⟩
    obtain ⟨pre, post, hdec, hpre, hp⟩ := find?_first haa
    refine ⟨pre, pa.2, post, ?_, hpre, hp⟩
    rw [← ha']
    exact hdec
  · refine ⟨by norm_num, by norm_num, by norm_num, by norm_num,
      fun a ha' => ?_, fun o' ho' => ?_⟩
    · obtain ⟨pre, post, hdec, hpre, hp⟩ := find?_first haa
      refine ⟨pre, pa.2, post, ?_, hpre, hp⟩
      rw [← ha']
      exact hdec
    · obtain ⟨pre, post, hdec, hpre, hp⟩ := find?_first hoo
      exact ⟨pre, post, by simp_all⟩

/-- Witness for C7 at a concrete utterance with both an action synonym
and a known object: confidence is forced into {0, 0.5, 1}. -/
theorem C7_keyword_confidence_witness :
    (extract_keywords "pick up the bottle").confidence = 0 ∨
    (extract_keywords "pick up the bottle").confidence = 1/2 ∨
    (extract_keywords "pick up the bottle").confidence = 1 :=
  (C7_keyword_confidence "pick up the bottle").1

/-! ## Claim C8: NLU delegation boundary -/

/-- C8 — the delegated NLU extractor is consulted iff the keyword
confidence is below the threshold and Gemini is enabled; its result then
replaces the keyword result verbatim; a raising or unparsable NLU call
degrades to `action=None, object=None, confidence=0.0`; and no exception
crosses the boundary (the embedding is total). -/
theorem C8_nlu_delegation (ts text : String) (use_gemini : Bool)
    (oracle : Except String KwResult) (ht : text ≠ "") :
    nluDelegationSpec ts text use_gemini oracle := by
  unfold nluDelegationSpec get_command
  refine ⟨?_, ?_, fun e => rfl⟩ <;> intro hc <;>
    simp [ht, hc, create_message]

/-- Witness for C8: a high-confidence utterance (both hits, confidence 1)
with Gemini enabled — the keyword branch is used. -/
theorem C8_nlu_delegation_witness :
    nluDelegationSpec "t0" "pick up the bottle" true
      (.ok ⟨some "pick", some "bottle", 9/10⟩) :=
  C8_nlu_delegation "t0" "pick up the bottle" true
    (.ok ⟨some "pick", some "bottle", 9/10⟩) (by decide)

/-! ## Claim C9: uniform envelopes -/

/-- C9 counterexample — in the configured hardware mode
(`simulation_mode = False`), `move_to_position` falls into the `else:
pass` branch and returns Python `None`, not an envelope; the claim's
"in every configured mode, never returning nothing" fails. -/
theorem C9_counterexample :
    (move_to_position "t0" hardwareMotorState "target").2 = none := rfl

/-- C9 (amended) — every embedded cross-component call returns exactly one
envelope with status in {success, error, warning}; for the three motor
primitives this is restricted to simulation mode (in hardware mode they
return nothing). -/
theorem C9_uniform_envelopes {π : Type} (ts : String) (w h : ℤ)
    (frame : Option (List Detection)) (target : String)
    (listenResult : Option String) (use_gemini : Bool)
    (oracle : Except String KwResult) (s : LearningState)
    (m : MotorState π) (pos : π) (info : ObjectInfo π)
    (hm : m.simulation_mode = true) :
    uniformEnvelopeSpec ts w h frame target listenResult use_gemini oracle
      s m pos info := by
  unfold uniformEnvelopeSpec statusOk3
  refine ⟨?_, ?_, ?_, rfl, ?_, ?_, ?_, rfl, rfl, rfl⟩
  · rcases frame with _ | dets
    · simp [find_object, create_message]
    · rcases hf : dets.find? (matchesTarget target) with _ | det <;>
        simp [find_object, create_message, hf]
  · rcases frame with _ | dets <;> simp [scan_scene, create_message]
  · rcases listenResult with _ | text
    · simp [get_command, create_message]
    · by_cases htext : text = ""
      · simp [get_command, create_message, htext]
      · simp [get_command, create_message, htext]
        split_ifs <;> (simp; tauto)
  · refine ⟨create_message ts "motor_agent" "movement"
      ⟨"move_complete", pos⟩ "success", ?_, rfl⟩
    simp [move_to_position, hm, create_message]
  · refine ⟨create_message ts "motor_agent" "gripper"
      ⟨"open", "open"⟩ "success", ?_, rfl⟩
    simp [open_gripper, hm, create_message]
  · refine ⟨create_message ts "motor_agent" "gripper"
      ⟨"close", "closed"⟩ "success", ?_, rfl⟩
    simp [close_gripper, hm, create_message]

/-- Witness for C9 at concrete inputs (simulation mode). -/
theorem C9_uniform_envelopes_witness :
    uniformEnvelopeSpec "t0" 640 480 (some [sampleDetection]) "bottle"
      (some "pick up the bottle") false (.error "down")
      initialLearningState simMotorState "target"
      ⟨some "bottle", "target"⟩ :=
  C9_uniform_envelopes "t0" 640 480 (some [sampleDetection]) "bottle"
    (some "pick up the bottle") false (.error "down")
    initialLearningState simMotorState "target"
    ⟨some "bottle", "target"⟩ rfl

/-! ## Claim C10: `log_action` robustness -/

/-- C10 — `log_action` always returns normally with the entry appended and
the statistics updated, even when the flush fails: the save error is
caught inside `_save_history`, the in-memory state is independent of the
write outcome, and missing `result`/`duration` keys default to
`"unknown"`/`0`. -/
theorem C10_log_action_robust (s : LearningState)
    (disk : Option SavedData) (a : ActionData) (ts : String) (N : ℕ) :
    logActionRobustSpec s disk a ts N := by
  unfold logActionRobustSpec
  refine ⟨rfl, rfl, ?_, fun h => by simp [mkLogEntry, h],
    fun h => by simp [mkLogEntry, h], rfl⟩
  simp only [log_action, save_history]
  split <;> rfl

/-- Witness for C10: an all-defaults entry at a concrete state — the
missing keys default and the failed flush leaves the empty disk empty. -/
theorem C10_log_action_robust_witness :
    (mkLogEntry emptyActionData "t0").result = "unknown" ∧
    (mkLogEntry emptyActionData "t0").duration = 0 ∧
    (log_action 10 true initialLearningState none emptyActionData
      "t0").2 = none :=
  ⟨(C10_log_action_robust initialLearningState none emptyActionData
      "t0" 10).2.2.2.1 rfl,
   (C10_log_action_robust initialLearningState none emptyActionData
      "t0" 10).2.2.2.2.1 rfl,
   (C10_log_action_robust initialLearningState none emptyActionData
      "t0" 10).2.2.1⟩

/-! ## Claim C2: success-rate recurrence -/

/-- `_update_stats` never touches the history list. -/
theorem update_stats_history (s : LearningState) (e : LogEntry) :
    (update_stats s e).action_history = s.action_history := rfl

/-- `update_stats` preserves success-rate consistency: the overall rate is
recomputed from the bumped counters, and the touched object bucket's rate
is recomputed likewise while the other buckets are untouched. -/
theorem update_stats_consistent (s : LearningState) (e : LogEntry)
    (h : statsConsistent s) : statsConsistent (update_stats s e) := by
  obtain ⟨h1, h2⟩ := h
  constructor
  · simp [update_stats]
  · intro p hp
    simp only [update_stats] at hp
    rcases ho : e.object with _ | obj
    · simp only [ho] at hp
      exact h2 p hp
    · simp only [ho] at hp
      by_cases hobj : obj = ""
      · rw [if_pos hobj] at hp
        exact h2 p hp
      · rw [if_neg hobj] at hp
        rcases setObjStats_mem hp with rfl | hold
        · simp [objConsistent]
        · exact h2 p hold

/-- C2 — after every `log_action`, the overall and per-object success
rates equal `successes/attempts*100` (0 when there are no attempts); and
the specification's three-action scenario yields overall `{3, 2, 1,
2/3*100}` and bottle `{2, 1, 1, 50}`. -/
theorem C2_success_rate_recurrence :
    (∀ (N : ℕ) (wf : Bool) (s : LearningState) (disk : Option SavedData)
      (a : ActionData) (ts : String), statsConsistent s →
        statsConsistent (log_action N wf s disk a ts).1) ∧
    ledgerScenarioSpec := by
  constructor
  · intro N wf s disk a ts h
    exact update_stats_consistent _ _ h
  · unfold ledgerScenarioSpec
    constructor <;>
      simp [scenarioState, scenarioActions, run_logs, log_action,
        update_stats, mkLogEntry, mkActionData, initialLearningState,
        getObjStats, setObjStats, save_history] <;>
      norm_num

/-- Witness for C2: the preservation component applied to the fresh
(consistent) ledger state and an all-defaults entry. -/
theorem C2_success_rate_recurrence_witness :
    statsConsistent
      (log_action 10 false initialLearningState none emptyActionData
        "t0").1 :=
  C2_success_rate_recurrence.1 10 false initialLearningState none
    emptyActionData "t0"
    (by simp [statsConsistent, initialLearningState, objConsistent])

/-! ## Claim C4: recommendation rules -/

/-- C4 counterexample — after exactly 3 failed attempts on "cup" (success
rate 0 < 50, attempts = 3), the claim requires a difficulty warning, but
the code's `attempts > 3` test suppresses it: the recommendation list is
only the low-success message. -/
theorem C4_counterexample :
    getObjStats c4State.object_stats "cup" = some ⟨3, 0, 3, 0⟩ ∧
    generate_recommendations c4State = [lowMsg] ∧
    difficultyMsg "cup" ∉ generate_recommendations c4State := by
  have h2 : generate_recommendations c4State = [lowMsg] := by
    simp [c4State, c4Actions, run_logs, log_action, update_stats,
      mkLogEntry, mkActionData, initialLearningState, getObjStats,
      setObjStats, save_history, generate_recommendations, lastN]
  refine ⟨?_, h2, ?_⟩
  · simp [c4State, c4Actions, run_logs, log_action, update_stats,
      mkLogEntry, mkActionData, initialLearningState, getObjStats,
      setObjStats, save_history]
  · rw [h2]
    simp [difficultyMsg, lowMsg]

/-- C4 (amended) — the recommendation list is exactly: one overall message
(low if rate < 50, else moderate if < 70, else good), then one difficulty
warning per object with **more than 3** attempts and rate < 50 in
insertion order, then the maintenance warning iff at least 5 of the last
10 entries are failures. -/
theorem C4_recommendation_rules (s : LearningState) :
    recommendationsSpec s := by
  unfold recommendationsSpec generate_recommendations
  dsimp only
  rw [foldl_guard_append
    (fun p => p.2.success_rate < 50 ∧ p.2.attempts > 3)
    (fun p => difficultyMsg p.1) s.object_stats]
  split_ifs <;> simp [List.append_assoc]

/-! ## Claim C3: flush cadence and shutdown -/

/-- While fewer than 10 entries have ever been appended, no flush happens:
the disk is untouched and the history length just counts the appends. -/
theorem run_logs_no_save :
    ∀ (as : List (ActionData × String)) (s : LearningState)
      (d : Option SavedData),
      s.action_history.length + as.length < 10 →
        (run_logs 10 false s d as).2 = d ∧
        (run_logs 10 false s d as).1.action_history.length =
          s.action_history.length + as.length
  | [], s, d => by
      intro _
      simp [run_logs]
  | a :: t, s, d => by
      intro h
      simp only [List.length_cons] at h
      have hlen :
          (log_action 10 false s d a.1 a.2).1.action_history.length =
            s.action_history.length + 1 := by
        simp [log_action, update_stats_history]
      have hdisk : (log_action 10 false s d a.1 a.2).2 = d := by
        have hlt : s.action_history.length + 1 < 10 := by omega
        have hne : (s.action_history.length + 1) % 10 ≠ 0 := by omega
        simp only [log_action, save_history, update_stats_history,
          List.length_append, List.length_cons, List.length_nil]
        rw [if_neg]
        simpa using hne
      have hstep : run_logs 10 false s d (a :: t) =
          run_logs 10 false (log_action 10 false s d a.1 a.2).1
            (log_action 10 false s d a.1 a.2).2 t := by
        simp [run_logs]
      obtain ⟨ih1, ih2⟩ := run_logs_no_save t
        (log_action 10 false s d a.1 a.2).1
        (log_action 10 false s d a.1 a.2).2 (by rw [hlen]; omega)
      rw [hstep]
      refine ⟨by rw [ih1, hdisk], ?_⟩
      rw [ih2, hlen]
      simp; omega

/-- C3 (amended) — `log_action` flushes exactly when the new history
length is a multiple of the configured `save_frequency`; from a fresh
agent, 9 calls leave the pre-run disk untouched and a 10th call persists
the full in-memory state; and the coordinator's shutdown path performs no
ledger write at all (the original claim's unconditional shutdown flush
does not exist in the code). -/
theorem C3_flush_cadence :
    (∀ (N : ℕ) (s : LearningState) (disk : Option SavedData)
      (a : ActionData) (ts : String),
      (log_action N false s disk a ts).2 =
        if (s.action_history.length + 1) % N == 0 then
          some (mkSnapshot (log_action N false s disk a ts).1 ts)
        else disk) ∧
    (∀ (as : List (ActionData × String)) (d0 : Option SavedData),
      as.length = 9 →
        (run_logs 10 false initialLearningState d0 as).2 = d0) ∧
    (∀ (as : List (ActionData × String)) (a : ActionData × String)
      (d0 : Option SavedData), as.length = 9 →
        (run_logs 10 false initialLearningState d0 (as ++ [a])).2 =
          some (mkSnapshot
            (run_logs 10 false initialLearningState d0 (as ++ [a])).1
            a.2) ∧
        (run_logs 10 false initialLearningState d0
          (as ++ [a])).1.action_history.length = 10) ∧
    (∀ (s : LearningState) (disk : Option SavedData),
      master_stop s disk = disk) := by
  refine ⟨?_, ?_, ?_, fun s disk => rfl⟩
  · intro N s disk a ts
    simp [log_action, save_history, mkSnapshot, update_stats_history]
  · intro as d0 h9
    exact (run_logs_no_save as initialLearningState d0
      (by simp [initialLearningState, h9])).1
  · intro as a d0 h9
    obtain ⟨base1, base2⟩ := run_logs_no_save as initialLearningState d0
      (by simp [initialLearningState, h9])
    have hstep :
        run_logs 10 false initialLearningState d0 (as ++ [a]) =
          log_action 10 false
            (run_logs 10 false initialLearningState d0 as).1
            (run_logs 10 false initialLearningState d0 as).2 a.1 a.2 := by
      simp [run_logs, List.foldl_append]
    have hlen9 :
        (run_logs 10 false initialLearningState d0
          as).1.action_history.length = 9 := by
      rw [base2]; simp [initialLearningState, h9]
    rw [hstep, base1]
    constructor
    · simp [log_action, save_history, mkSnapshot, update_stats_history,
        hlen9]
    · simp [log_action, update_stats_history, hlen9]

/-- Witness for C3: nine concrete calls from a fresh agent leave an empty
disk empty. -/
theorem C3_flush_cadence_witness :
    (run_logs 10 false initialLearningState none
      (List.replicate 9
        (mkActionData "pick" "cup" "failure" 1 none, "t"))).2 = none :=
  C3_flush_cadence.2.1
    (List.replicate 9 (mkActionData "pick" "cup" "failure" 1 none, "t"))
    none (by simp)

/-- C3 counterexample — after 9 appends from a fresh agent the in-memory
ledger holds 9 entries, nothing was ever flushed, and the coordinator's
shutdown leaves the disk exactly as it was (here: empty), contradicting
the claimed unconditional shutdown write of the in-memory state. -/
theorem C3_counterexample :
    c3Run9.1.action_history.length = 9 ∧ c3Run9.2 = none ∧
    master_stop c3Run9.1 c3Run9.2 = none :=
  ⟨rfl, rfl, rfl⟩

/-! ## Claim C1: pick-workflow ledger discipline -/

/-- C1 (amended) — a dispatched pick with a real object name produces
exactly one ledger entry (the not-found failure entry with error
`"Object not found"` when vision fails or does not find it, otherwise the
entry dictated by the actuation envelope); but a success-status pick
intent whose object is `None` or empty produces **no** entry, and a
non-success intent envelope likewise logs nothing. -/
theorem C1_pick_ledger :
    (∀ (tobj : Option String) (vision : Envelope FindData)
      (motor : Envelope MotorActionData) (d1 d2 : ℚ),
      pickWorkflowSpec tobj vision motor d1 d2) ∧
    (∀ (speech : Envelope IntentData) (vision : Envelope FindData)
      (mp mpl : Envelope MotorActionData) (d1 d2 dp : ℚ)
      (obj : Option String) (conf : ℚ) (raw : String),
      speech.status = "success" →
      speech.data = .intent (some "pick") obj conf raw →
      process_command speech vision mp mpl d1 d2 dp =
        handle_pick obj vision mp d1 d2) ∧
    (∀ (speech : Envelope IntentData) (vision : Envelope FindData)
      (mp mpl : Envelope MotorActionData) (d1 d2 dp : ℚ),
      speech.status ≠ "success" →
      process_command speech vision mp mpl d1 d2 dp = []) := by
  refine ⟨?_, ?_, ?_⟩
  · intro tobj vision motor d1 d2
    unfold pickWorkflowSpec
    refine ⟨?_, ?_, ?_, ?_, ?_, ?_⟩
    · rintro rfl; rfl
    · rintro rfl; simp [handle_pick]
    · rintro t rfl ht
      simp only [handle_pick, if_neg ht]
      split_ifs <;> simp
    · rintro t rfl ht hv
      simp only [handle_pick, if_neg ht]
      rw [if_pos (by tauto)]
    · rintro t rfl ht hs hf hm
      simp only [handle_pick, if_neg ht]
      rw [if_neg (by simp [hs, hf]), if_pos hm]
    · rintro t rfl ht hs hf hm
      simp only [handle_pick, if_neg ht]
      rw [if_neg (by simp [hs, hf]), if_neg hm]
  · intro speech vision mp mpl d1 d2 dp obj conf raw hst hdata
    simp [process_command, hst, hdata]
  · intro speech vision mp mpl d1 d2 dp hst
    simp [process_command, hst]

/-- C1 counterexample — a success-status intent envelope with
`action = "pick"` and `object = None` reaches the coordinator, yet zero
`log_action` calls are produced (the claim demanded exactly one). -/
theorem C1_counterexample :
    process_command c1speech c1visionFound motorOkEnvelope
      motorOkEnvelope 1 2 3 = [] ∧
    handle_pick none c1visionFound motorOkEnvelope 1 2 = [] :=
  ⟨rfl, rfl⟩

/-- Witness for C1: the amended workflow property at concrete inputs. -/
theorem C1_pick_ledger_witness :
    handle_pick (some "bottle") c1visionFound motorOkEnvelope 1 2 =
      [⟨some "pick", some "bottle", some "success", some 2, none⟩] :=
  (C1_pick_ledger.1 (some "bottle") c1visionFound motorOkEnvelope
    1 2).2.2.2.2.1 "bottle" rfl (by decide) rfl rfl rfl

end RoboSys
